import Mathlib

/-!
A verification development for the resilient API-access core of a
bookmark-management service: a token-bucket rate limiter with a circuit
breaker and priority queue (`rate_limiter.py`), a retrying HTTP client
with fixed status-to-error classification (`client.py`,
`exceptions.py`), and the MCP/Raindrop argument transformers
(`transformers.py`).

Python floats used for timestamps and token counts are embedded as
rationals (`ℚ`); Python ints as `ℤ`.  Stateful methods become pure
functions returning the result together with the updated state.
-/

namespace Raindrop

/-- The three circuit-breaker states (`CircuitState` in `rate_limiter.py`). -/
inductive CircuitState where
  | CLOSED
  | OPEN
  | HALF_OPEN
deriving DecidableEq, Repr

/-- Token bucket for rate limiting (`TokenBucket` in `rate_limiter.py`).
Timestamps and token counts are rationals standing for Python floats. -/
structure TokenBucket where
  capacity : ℤ
  tokens : ℚ
  refill_rate : ℚ
  last_refill : ℚ
deriving DecidableEq, Repr

namespace TokenBucket

/-- Embedding of `TokenBucket._refill`: add `elapsed * refill_rate` tokens
capped at `capacity` and set `last_refill` to `now`. -/
def refillAt (b : TokenBucket) (now : ℚ) : TokenBucket :=
  let elapsed : ℚ := now - b.last_refill
  let tokens_to_add : ℚ := elapsed * b.refill_rate
  { b with tokens := min (b.capacity : ℚ) (b.tokens + tokens_to_add),
           last_refill := now }

/-- Embedding of `TokenBucket.consume`: refill, then consume `n` tokens if
at least `n` are present, returning whether consumption succeeded together
with the updated bucket. -/
def consume (b : TokenBucket) (now : ℚ) (n : ℤ) : Bool × TokenBucket :=
  let b := b.refillAt now
  if (n : ℚ) ≤ b.tokens then
    (true, { b with tokens := b.tokens - (n : ℚ) })
  else
    (false, b)

/-- Truncation toward zero, the meaning of Python's `int(...)` on a float. -/
def truncInt (q : ℚ) : ℤ :=
  if 0 ≤ q then ⌊q⌋ else -⌊-q⌋

/-- Embedding of `TokenBucket.tokens_available`: refill, then report the
truncated token count; the refilled bucket is the side effect. -/
def tokens_available (b : TokenBucket) (now : ℚ) : ℤ × TokenBucket :=
  let b := b.refillAt now
  (truncInt b.tokens, b)

/-- Embedding of `TokenBucket.time_until_available`: refill, then report 0
if `n` tokens are present, otherwise the time for the deficit to refill. -/
def time_until_available (b : TokenBucket) (now : ℚ) (n : ℤ) : ℚ × TokenBucket :=
  let b := b.refillAt now
  if (n : ℚ) ≤ b.tokens then
    (0, b)
  else
    (((n : ℚ) - b.tokens) / b.refill_rate, b)

/-- A concrete bucket used as a test vector: capacity 10, 5 tokens,
refilling 2 tokens per second, last refilled at time 0. -/
def bucketEx : TokenBucket :=
  { capacity := 10, tokens := 5, refill_rate := 2, last_refill := 0 }

end TokenBucket

/-- Circuit breaker (`CircuitBreaker` in `rate_limiter.py`). -/
structure CircuitBreaker where
  failure_threshold : ℤ
  recovery_timeout : ℚ
  success_threshold : ℤ
  state : CircuitState
  failure_count : ℤ
  success_count : ℤ
  last_failure_time : ℚ
deriving DecidableEq, Repr

namespace CircuitBreaker

/-- The dataclass defaults of `CircuitBreaker()`: thresholds 5/2, 60-second
recovery timeout, CLOSED state, zeroed counters. -/
def init : CircuitBreaker :=
  { failure_threshold := 5
    recovery_timeout := 60
    success_threshold := 2
    state := CircuitState.CLOSED
    failure_count := 0
    success_count := 0
    last_failure_time := 0 }

/-- Embedding of `CircuitBreaker.can_execute` at time `now`: CLOSED and
HALF_OPEN always allow; OPEN allows only when the recovery timeout has
elapsed since the last failure, in which case the state moves to HALF_OPEN
with `success_count` reset. -/
def can_execute (cb : CircuitBreaker) (now : ℚ) : Bool × CircuitBreaker :=
  match cb.state with
  | CircuitState.CLOSED => (true, cb)
  | CircuitState.OPEN =>
    if cb.recovery_timeout ≤ now - cb.last_failure_time then
      (true, { cb with state := CircuitState.HALF_OPEN, success_count := 0 })
    else
      (false, cb)
  | CircuitState.HALF_OPEN => (true, cb)

/-- Embedding of `CircuitBreaker.record_success`: in HALF_OPEN increment
`success_count` and close the circuit at the success threshold (resetting
`failure_count`); in CLOSED reset `failure_count`; in OPEN do nothing. -/
def record_success (cb : CircuitBreaker) : CircuitBreaker :=
  match cb.state with
  | CircuitState.HALF_OPEN =>
    let cb := { cb with success_count := cb.success_count + 1 }
    if cb.success_threshold ≤ cb.success_count then
      { cb with state := CircuitState.CLOSED, failure_count := 0 }
    else
      cb
  | CircuitState.CLOSED => { cb with failure_count := 0 }
  | CircuitState.OPEN => cb

/-- Embedding of `CircuitBreaker.record_failure` at time `now`: increment
`failure_count` and stamp `last_failure_time` unconditionally; from CLOSED
open the circuit at the failure threshold; from HALF_OPEN open it
immediately; in OPEN stay OPEN. -/
def record_failure (cb : CircuitBreaker) (now : ℚ) : CircuitBreaker :=
  let cb := { cb with failure_count := cb.failure_count + 1,
                      last_failure_time := now }
  match cb.state with
  | CircuitState.CLOSED =>
    if cb.failure_threshold ≤ cb.failure_count then
      { cb with state := CircuitState.OPEN }
    else
      cb
  | CircuitState.HALF_OPEN => { cb with state := CircuitState.OPEN }
  | CircuitState.OPEN => cb

/-- Fold `record_failure` over a list of failure timestamps. -/
def record_failures (cb : CircuitBreaker) : List ℚ → CircuitBreaker
  | [] => cb
  | t :: ts => record_failures (cb.record_failure t) ts

/-- Iterate `record_success` `n` times. -/
def record_successes (cb : CircuitBreaker) : ℕ → CircuitBreaker
  | 0 => cb
  | n + 1 => (cb.record_success).record_successes n

/-- A concrete breaker, OPEN since time 10, used as a test vector. -/
def openAt10 : CircuitBreaker :=
  { init with
    state := CircuitState.OPEN
    failure_count := 5
    last_failure_time := 10 }

/-- A concrete breaker, HALF_OPEN with last failure at time 10, used as a
test vector. -/
def halfOpenAt10 : CircuitBreaker :=
  { init with
    state := CircuitState.HALF_OPEN
    failure_count := 5
    last_failure_time := 10 }

end CircuitBreaker

/-- The statistics counters of the rate limiter (`RateLimiter.stats`). -/
structure Stats where
  requests_processed : ℤ
  requests_rejected : ℤ
  requests_queued : ℤ
  circuit_breaker_trips : ℤ
  average_wait_time : ℚ
deriving DecidableEq, Repr

/-- The all-zero statistics block a fresh `RateLimiter` starts with. -/
def Stats.init : Stats :=
  { requests_processed := 0
    requests_rejected := 0
    requests_queued := 0
    circuit_breaker_trips := 0
    average_wait_time := 0 }

/-- A queued request (`request_info` in `RateLimiter.acquire`): the enqueue
timestamp, the requested priority string, and the future awaited by the
caller, identified here by an allocation number. -/
structure PendingRequest where
  timestamp : ℚ
  priority : String
  future : ℕ
deriving DecidableEq, Repr

/-- The three FIFO lanes of `PriorityQueue`. -/
structure PriorityQueueState where
  high : List PendingRequest
  normal : List PendingRequest
  low : List PendingRequest
deriving DecidableEq, Repr

/-- The empty priority queue. -/
def PriorityQueueState.empty : PriorityQueueState :=
  { high := [], normal := [], low := [] }

/-- Embedding of `PriorityQueue.put`: append to the lane named by
`priority`, any unrecognized name landing in the normal lane. -/
def PriorityQueueState.put (q : PriorityQueueState) (item : PendingRequest)
    (priority : String) : PriorityQueueState :=
  if priority = "high" then { q with high := q.high ++ [item] }
  else if priority = "low" then { q with low := q.low ++ [item] }
  else { q with normal := q.normal ++ [item] }

/-- The rate limiter's state (`RateLimiter` in `rate_limiter.py`):
token bucket, optional circuit breaker, priority queue, running flag and
statistics.  `next_future` numbers the futures `acquire` allocates. -/
structure RateLimiter where
  token_bucket : TokenBucket
  circuit_breaker : Option CircuitBreaker
  queue : PriorityQueueState
  running : Bool
  stats : Stats
  next_future : ℕ
deriving DecidableEq, Repr

/-- Embedding of `RateLimiter.__init__` at creation time `t0`: a full
bucket of `requests_per_minute` tokens refilling at that rate per minute,
a default circuit breaker when enabled, an empty queue and zeroed
statistics. -/
def RateLimiter.create (requests_per_minute : ℤ)
    (circuit_breaker_enabled : Bool) (t0 : ℚ) : RateLimiter :=
  { token_bucket :=
      { capacity := requests_per_minute
        tokens := (requests_per_minute : ℚ)
        refill_rate := (requests_per_minute : ℚ) / 60
        last_refill := t0 }
    circuit_breaker :=
      if circuit_breaker_enabled then some CircuitBreaker.init else none
    queue := PriorityQueueState.empty
    running := false
    stats := Stats.init
    next_future := 0 }

/-- Outcome of the synchronous prefix of `RateLimiter.acquire`: the raised
rate-limit error, an immediate grant, or an enqueued pending request whose
future the caller then awaits. -/
inductive AcquireOutcome where
  | rateLimitError (msg : String)
  | granted
  | queued (r : PendingRequest)
deriving DecidableEq, Repr

/-- The immediate-consumption-or-enqueue tail of `RateLimiter.acquire`
(after the circuit-breaker check): try `TokenBucket.consume(1)`; on
success count the request processed and grant; otherwise build the
pending request, enqueue it under `priority` and count it queued. -/
def RateLimiter.acquire_tryConsume (rl : RateLimiter) (now : ℚ)
    (priority : String) : AcquireOutcome × RateLimiter :=
  let res := rl.token_bucket.consume now 1
  let rl2 := { rl with token_bucket := res.2 }
  if res.1 then
    (AcquireOutcome.granted,
     { rl2 with stats := { rl2.stats with
        requests_processed := rl2.stats.requests_processed + 1 } })
  else
    let req : PendingRequest :=
      { timestamp := now, priority := priority, future := rl2.next_future }
    (AcquireOutcome.queued req,
     { rl2 with
        queue := rl2.queue.put req priority
        next_future := rl2.next_future + 1
        stats := { rl2.stats with
          requests_queued := rl2.stats.requests_queued + 1 } })

/-- Embedding of the synchronous prefix of `RateLimiter.acquire` at time
`now` (everything before the caller suspends on its future): if a circuit
breaker is present and `can_execute` denies, count the request rejected
and raise `RateLimitError`; otherwise try immediate consumption or
enqueue. -/
def RateLimiter.acquire_sync (rl : RateLimiter) (now : ℚ)
    (priority : String) : AcquireOutcome × RateLimiter :=
  match rl.circuit_breaker with
  | some cb =>
    let res := cb.can_execute now
    let rl2 := { rl with circuit_breaker := some res.2 }
    if res.1 then
      rl2.acquire_tryConsume now priority
    else
      (AcquireOutcome.rateLimitError
        "Service temporarily unavailable (circuit breaker open)",
       { rl2 with stats := { rl2.stats with
          requests_rejected := rl2.stats.requests_rejected + 1 } })
  | none => rl.acquire_tryConsume now priority

/-- Embedding of `RateLimiter.record_success`: forward to the circuit
breaker when present. -/
def RateLimiter.record_success (rl : RateLimiter) : RateLimiter :=
  match rl.circuit_breaker with
  | some cb => { rl with circuit_breaker := some cb.record_success }
  | none => rl

/-- Embedding of `RateLimiter.record_failure` at time `now`: forward to
the circuit breaker when present, and increment the trip counter whenever
the breaker's state after the call is OPEN. -/
def RateLimiter.record_failure (rl : RateLimiter) (now : ℚ) : RateLimiter :=
  match rl.circuit_breaker with
  | some cb =>
    let cb2 := cb.record_failure now
    let trips :=
      if cb2.state = CircuitState.OPEN then
        rl.stats.circuit_breaker_trips + 1
      else
        rl.stats.circuit_breaker_trips
    { rl with
      circuit_breaker := some cb2
      stats := { rl.stats with circuit_breaker_trips := trips } }
  | none => rl

/-- A concrete rate limiter whose breaker has been OPEN since time 10,
used as a test vector. -/
def RateLimiter.openEx : RateLimiter :=
  { token_bucket := TokenBucket.bucketEx
    circuit_breaker := some CircuitBreaker.openAt10
    queue := PriorityQueueState.empty
    running := true
    stats := Stats.init
    next_future := 0 }

/-- Lowercasing of a string, the meaning of Python's `.lower()` on the
ASCII messages the client inspects. -/
def lowerStr (s : String) : String := String.mk (s.data.map Char.toLower)

/-- Does the needle occur as a prefix of the haystack (both as character
lists)? -/
def charsStartWith : List Char → List Char → Bool
  | _, [] => true
  | [], _ :: _ => false
  | a :: as, b :: bs => a == b && charsStartWith as bs

/-- Does the needle occur as a contiguous substring of the haystack?  The
meaning of Python's `needle in haystack` on strings. -/
def charsContain : List Char → List Char → Bool
  | [], nd => charsStartWith [] nd
  | a :: t, nd => charsStartWith (a :: t) nd || charsContain t nd

/-- Substring test on strings (Python's `pat in s`). -/
def strContainsSub (s pat : String) : Bool :=
  charsContain s.toList pat.toList

/-- The client's exception taxonomy (`exceptions.py`), carrying the
message each constructor formats. -/
inductive RaindropException where
  | raindropError (msg : String) (status : Option ℤ)
  | authenticationError (msg : String)
  | invalidTokenError (msg : String)
  | tokenExpiredError (msg : String)
  | missingTokenError (msg : String)
  | rateLimitError (msg : String) (retry_after : Option ℤ)
  | validationError (msg : String)
  | notFoundError (msg : String)
  | permissionError (msg : String)
  | serverError (msg : String) (status : ℤ)
  | networkError (msg : String)
deriving DecidableEq, Repr

/-- The message `NotFoundError.__init__` builds: the resource name plus
" not found", with an ID suffix only for a truthy (non-zero, non-None)
resource id. -/
def notFoundMessage (resource : String) (resource_id : Option ℤ) : String :=
  resource ++ " not found" ++
    (match resource_id with
     | some i => if i ≠ 0 then " (ID: " ++ toString i ++ ")" else ""
     | none => "")

/-- Embedding of `RaindropClient._handle_response`: the fixed
status-to-error mapping.  `errorField` is the parsed body's "error" field
when present; `retryAfter` the parsed Retry-After header.  Note the 404
branch reads the body's error message and then discards it, raising
`NotFoundError("Resource", None)`. -/
def handle_response (status : ℤ) (errorField : Option String)
    (retryAfter : Option ℤ) : Except RaindropException Unit :=
  if status = 200 ∨ status = 201 then
    Except.ok ()
  else if status = 400 then
    Except.error (RaindropException.validationError (errorField.getD "Bad request"))
  else if status = 401 then
    let msg := errorField.getD "Unauthorized"
    if strContainsSub (lowerStr msg) "token" then
      if strContainsSub (lowerStr msg) "expired" then
        Except.error (RaindropException.tokenExpiredError msg)
      else
        Except.error (RaindropException.invalidTokenError msg)
    else
      Except.error (RaindropException.authenticationError msg)
  else if status = 403 then
    Except.error (RaindropException.permissionError (errorField.getD "Forbidden"))
  else if status = 404 then
    Except.error (RaindropException.notFoundError (notFoundMessage "Resource" none))
  else if status = 429 then
    Except.error (RaindropException.rateLimitError
      (errorField.getD "Too many requests") retryAfter)
  else if 500 ≤ status then
    Except.error (RaindropException.serverError
      (errorField.getD "Server error") status)
  else
    Except.error (RaindropException.raindropError
      (errorField.getD ("Unexpected status code: " ++ toString status))
      (some status))

/-- What one attempt of the retry loop in `RaindropClient._make_request`
encounters: a transport-level failure (an `aiohttp.ClientError`, or a
timeout), or an HTTP response to be classified by `_handle_response`. -/
inductive AttemptOutcome where
  | transportError (isTimeout : Bool) (text : String)
  | httpResponse (status : ℤ) (errorField : Option String)
      (retryAfter : Option ℤ)
deriving DecidableEq, Repr

/-- Observable trace of one `_make_request` call: the returned value or
raised exception, how many attempts ran, and how many
`rate_limiter.record_failure` / `record_success` calls were made. -/
structure RequestTrace where
  result : Except RaindropException Unit
  attemptsMade : ℕ
  failuresRecorded : ℕ
  successesRecorded : ℕ
deriving Repr

/-- The exception `_make_request` raises when the loop exhausts all
retries with `last_exception` set: the timeout wording for a timeout,
otherwise the retry-count wording carrying the cause's text. -/
def exhaustedError (maxRetries : ℕ) : Option (Bool × String) →
    RaindropException
  | some (true, _) =>
    RaindropException.networkError "Request timed out after multiple retries"
  | some (false, text) =>
    RaindropException.networkError
      ("Request failed after " ++ toString maxRetries ++ " retries: " ++ text)
  | none => RaindropException.networkError "Request failed for unknown reason"

/-- One step of the retry loop of `RaindropClient._make_request`
(lines 183-238), driven by the outcome of each attempt.  The
`except (ClientError, asyncio.TimeoutError)` clause catches only
transport-level failures: an exception raised by `_handle_response` (all
of which extend `RaindropError`, a plain `Exception`) is not caught and
propagates out of the loop at once, with no `record_failure` call. -/
def requestLoopGo (maxRetries : ℕ) (attempts : ℕ → AttemptOutcome) :
    ℕ → ℕ → Option (Bool × String) → ℕ → ℕ → RequestTrace
  | 0, idx, lastExc, fails, succs =>
    { result := Except.error (exhaustedError maxRetries lastExc)
      attemptsMade := idx
      failuresRecorded := fails
      successesRecorded := succs }
  | fuel + 1, idx, _lastExc, fails, succs =>
    match attempts idx with
    | AttemptOutcome.transportError isT text =>
      if idx = maxRetries then
        { result := Except.error (exhaustedError maxRetries (some (isT, text)))
          attemptsMade := idx + 1
          failuresRecorded := fails + 1
          successesRecorded := succs }
      else
        requestLoopGo maxRetries attempts fuel (idx + 1) (some (isT, text))
          (fails + 1) succs
    | AttemptOutcome.httpResponse st ef ra =>
      match handle_response st ef ra with
      | Except.ok _ =>
        { result := Except.ok ()
          attemptsMade := idx + 1
          failuresRecorded := fails
          successesRecorded := succs + 1 }
      | Except.error e =>
        { result := Except.error e
          attemptsMade := idx + 1
          failuresRecorded := fails
          successesRecorded := succs }

/-- The retry loop of `_make_request`: `max_retries + 1` attempts at
most, starting from attempt 0 with no `last_exception`. -/
def makeRequestLoop (maxRetries : ℕ) (attempts : ℕ → AttemptOutcome) :
    RequestTrace :=
  requestLoopGo maxRetries attempts (maxRetries + 1) 0 none 0 0

/-- A word character in the sense of the regex `\w` (over the ASCII
range): letters, digits and underscore. -/
def isWordChar (c : Char) : Bool := c.isAlphanum || c == '_'

/-- A whitespace character in the sense of the regex `\s` (over the
ASCII range). -/
def isPySpace (c : Char) : Bool :=
  c == ' ' || c == '\t' || c == '\n' || c == '\r' || c == '\x0b' || c == '\x0c'

/-- Collapse each run of consecutive spaces to a single space. -/
def squeezeSpaces : List Char → List Char
  | [] => []
  | [c] => [c]
  | a :: b :: rest =>
    if a == ' ' && b == ' ' then squeezeSpaces (b :: rest)
    else a :: squeezeSpaces (b :: rest)

/-- Remove leading and trailing spaces (Python's `.strip()` after all
whitespace has been normalized to spaces). -/
def stripChars (l : List Char) : List Char :=
  ((l.dropWhile (fun c => c == ' ')).reverse.dropWhile (fun c => c == ' ')).reverse

/-- Embedding of `sanitize_tag` (`transformers.py`): drop characters
outside `\w`, `\s` and "-"; collapse whitespace runs to single spaces and
strip; truncate to 50 characters; lowercase. -/
def sanitize_tag (tag : String) : String :=
  let t1 := tag.data.filter (fun c => isWordChar c || isPySpace c || c == '-')
  let t2 := squeezeSpaces (t1.map (fun c => if isPySpace c then ' ' else c))
  let t3 := stripChars t2
  String.mk ((t3.take 50).map Char.toLower)

/-- Embedding of `remove_duplicates_preserve_order`'s loop: `seen` holds
the strings already kept; empty strings and repeats are skipped. -/
def removeDupsAux (seen : List String) : List String → List String
  | [] => []
  | x :: xs =>
    if x ≠ "" ∧ x ∉ seen then x :: removeDupsAux (x :: seen) xs
    else removeDupsAux seen xs

/-- Embedding of `remove_duplicates_preserve_order`: keep the first
occurrence of each non-empty string, in order. -/
def remove_duplicates_preserve_order (items : List String) : List String :=
  removeDupsAux [] items

/-- A scheme character as accepted by `urllib.parse`: letters, digits,
"+", "-" and ".". -/
def isSchemeChar (c : Char) : Bool :=
  c.isAlphanum || c == '+' || c == '-' || c == '.'

/-- Split a character list at its first ":", when present. -/
def splitAtColon : List Char → Option (List Char × List Char)
  | [] => none
  | c :: cs =>
    if c = ':' then some ([], cs)
    else
      match splitAtColon cs with
      | some (pre, post) => some (c :: pre, post)
      | none => none

/-- The scheme/remainder split `urllib.parse.urlparse` performs: the text
before the first ":" is the scheme when it is non-empty, starts with a
letter and uses only scheme characters; otherwise there is no scheme. -/
def urlSchemeSplit (url : List Char) : List Char × List Char :=
  match splitAtColon url with
  | some (pre, post) =>
    if (match pre with
        | c :: _ => c.isAlpha
        | [] => false) && pre.all isSchemeChar then
      (pre, post)
    else
      ([], url)
  | none => ([], url)

/-- The netloc `urllib.parse.urlparse` extracts from the remainder after
the scheme: present only after "//", running to the next "/", "?" or
"#". -/
def urlNetloc : List Char → List Char
  | '/' :: '/' :: r =>
    r.takeWhile (fun c => !(c == '/' || c == '?' || c == '#'))
  | _ => []

/-- Embedding of `validate_url`: both the parsed scheme and netloc must
be non-empty. -/
def validate_url (url : String) : Bool :=
  let p := urlSchemeSplit url.data
  !p.1.isEmpty && !(urlNetloc p.2).isEmpty

/-- Embedding of `validate_collection_id`: `None` is valid; an int is
valid when positive. -/
def validate_collection_id : Option ℤ → Bool
  | none => true
  | some i => decide (0 < i)

/-- Embedding of `sanitize_text_field`: empty for a missing (or `None`)
value; otherwise whitespace-normalized, stripped and truncated to
`max_length`. -/
def sanitize_text_field (text : Option String) (max_length : ℕ) : String :=
  match text with
  | none => ""
  | some t =>
    let t2 := squeezeSpaces (t.data.map (fun c => if isPySpace c then ' ' else c))
    String.mk ((stripChars t2).take max_length)

/-- The tags block of `mcp_to_raindrop_create_bookmark`: only a present,
truthy (non-empty) list is processed; the sanitized, deduplicated list is
written only when itself non-empty. -/
def processCreateTags (tags : Option (List String)) : Option (List String) :=
  match tags with
  | some ts =>
    if ts.isEmpty then none
    else
      let sanitized := remove_duplicates_preserve_order (ts.map sanitize_tag)
      if sanitized.isEmpty then none else some sanitized
  | none => none

/-- The argument map of `mcp_to_raindrop_create_bookmark`.  A field's
outer `none` means the key is absent; for the text fields the inner
`Option` is the possibly-`None` value; `tags := some ts` is a present
list value (a present `None` behaves like an absent key under the code's
truthiness guard and is folded into `none`). -/
structure CreateBookmarkArgs where
  url : Option String := none
  title : Option (Option String) := none
  excerpt : Option (Option String) := none
  note : Option (Option String) := none
  tags : Option (List String) := none
  collection_id : Option (Option ℤ) := none
deriving DecidableEq, Repr

/-- The Raindrop-format dictionary `mcp_to_raindrop_create_bookmark`
builds; a `none` field means the key is not set.  `collection := some v`
models `data["collection"] = ... v ...` (the id may itself be `None`). -/
structure RaindropBookmarkData where
  link : String := ""
  title : Option String := none
  excerpt : Option String := none
  note : Option String := none
  tags : Option (List String) := none
  collection : Option (Option ℤ) := none
deriving DecidableEq, Repr

/-- Embedding of `mcp_to_raindrop_create_bookmark` (`transformers.py`
lines 96-137); `ValueError` becomes `Except.error` of the message. -/
def mcp_to_raindrop_create_bookmark (args : CreateBookmarkArgs) :
    Except String RaindropBookmarkData :=
  match args.url with
  | none => Except.error "URL is required"
  | some url =>
    if url = "" then Except.error "URL is required"
    else if validate_url url = false then Except.error "Invalid URL format"
    else
      let d0 : RaindropBookmarkData := { link := url }
      let d1 :=
        match args.title with
        | some t => { d0 with title := some (sanitize_text_field t 300) }
        | none => d0
      let d2 :=
        match args.excerpt with
        | some t => { d1 with excerpt := some (sanitize_text_field t 1000) }
        | none => d1
      let d3 :=
        match args.note with
        | some t => { d2 with note := some (sanitize_text_field t 10000) }
        | none => d2
      let d4 :=
        match processCreateTags args.tags with
        | some sanitized => { d3 with tags := some sanitized }
        | none => d3
      match args.collection_id with
      | some cid =>
        if validate_collection_id cid then
          Except.ok { d4 with collection := some cid }
        else
          Except.error "Invalid collection ID"
      | none => Except.ok d4

/-- The argument map of `mcp_to_raindrop_update_bookmark`; for `tags` and
`collection_id`, `some none` is a key explicitly present with value
`None`. -/
structure UpdateBookmarkArgs where
  bookmark_id : Option ℤ := none
  title : Option (Option String) := none
  excerpt : Option (Option String) := none
  note : Option (Option String) := none
  tags : Option (Option (List String)) := none
  collection_id : Option (Option ℤ) := none
deriving DecidableEq, Repr

/-- The Raindrop-format dictionary `mcp_to_raindrop_update_bookmark`
builds; `collection := some v` models `data["collection"] = ... v ...`. -/
structure RaindropUpdateData where
  title : Option String := none
  excerpt : Option String := none
  note : Option String := none
  tags : Option (List String) := none
  collection : Option ℤ := none
deriving DecidableEq, Repr

/-- Embedding of `mcp_to_raindrop_update_bookmark` (`transformers.py`
lines 140-178): a falsy or non-int `bookmark_id` is rejected; an explicit
`tags: None` clears the tags; an explicit `collection_id: None` moves the
bookmark to the root collection (id 0). -/
def mcp_to_raindrop_update_bookmark (args : UpdateBookmarkArgs) :
    Except String RaindropUpdateData :=
  match args.bookmark_id with
  | none => Except.error "Valid bookmark_id is required"
  | some bid =>
    if bid = 0 then Except.error "Valid bookmark_id is required"
    else
      let d0 : RaindropUpdateData := {}
      let d1 :=
        match args.title with
        | some t => { d0 with title := some (sanitize_text_field t 300) }
        | none => d0
      let d2 :=
        match args.excerpt with
        | some t => { d1 with excerpt := some (sanitize_text_field t 1000) }
        | none => d1
      let d3 :=
        match args.note with
        | some t => { d2 with note := some (sanitize_text_field t 10000) }
        | none => d2
      let d4 :=
        match args.tags with
        | some none => { d3 with tags := some ([] : List String) }
        | some (some ts) =>
          let sanitized := remove_duplicates_preserve_order (ts.map sanitize_tag)
          { d3 with tags := some sanitized }
        | none => d3
      match args.collection_id with
      | some none => Except.ok { d4 with collection := some 0 }
      | some (some cid) =>
        if validate_collection_id (some cid) then
          Except.ok { d4 with collection := some cid }
        else
          Except.error "Invalid collection ID"
      | none => Except.ok d4

/-- State of the `asyncio.Future` a queued `acquire` call awaits.
Modelled from asyncio's documented semantics: a future is pending until
it is either cancelled or given a result. -/
inductive FutureState where
  | pending
  | cancelled
  | resolved (value : Bool)
deriving DecidableEq, Repr

/-- Modelled from asyncio's documented semantics: `Future.cancel()` moves
a pending future to the cancelled state and leaves a finished one
alone. -/
def futureCancel : FutureState → FutureState
  | FutureState.pending => FutureState.cancelled
  | s => s

/-- Modelled from asyncio's documented semantics: `Future.set_result`
succeeds only on a pending future; on a cancelled or already-resolved
future it raises `InvalidStateError`, modelled as `Except.error ()`. -/
def futureSetResult (s : FutureState) (value : Bool) :
    Except Unit FutureState :=
  match s with
  | FutureState.pending => Except.ok (FutureState.resolved value)
  | _ => Except.error ()

/-- The `except asyncio.TimeoutError` path of `RateLimiter.acquire`
(lines 322-334): `asyncio.wait_for` cancels the awaited future when the
timeout fires and raises `TimeoutError`, which `acquire` catches,
incrementing the rejected counter and returning false.  Returns the
boolean result, the updated statistics and the future's state. -/
def acquireTimeout (stats : Stats) (fut : FutureState) :
    Bool × Stats × FutureState :=
  (false,
   { stats with requests_rejected := stats.requests_rejected + 1 },
   futureCancel fut)

/-- What one grant step of `RateLimiter._process_queue` observes
(lines 353-367). -/
structure DrainStepResult where
  future : FutureState
  stats : Stats
  loopContinues : Bool
  pausedOneSecond : Bool
  raisedOut : Bool
deriving Repr

/-- The future-resolution tail of a `_process_queue` iteration: call
`set_result(grant)` and then bump the matching counter; an exception from
`set_result` is caught by the iteration's `except Exception` handler,
which logs, sleeps one second and lets the loop continue — it never
escapes the drain task, and the counter bump after the failed call is
skipped. -/
def drainResolve (stats : Stats) (fut : FutureState) (grant : Bool) :
    DrainStepResult :=
  match futureSetResult fut grant with
  | Except.ok fut2 =>
    if grant then
      { future := fut2
        stats := { stats with
          requests_processed := stats.requests_processed + 1 }
        loopContinues := true
        pausedOneSecond := false
        raisedOut := false }
    else
      { future := fut2
        stats := { stats with
          requests_rejected := stats.requests_rejected + 1 }
        loopContinues := true
        pausedOneSecond := false
        raisedOut := false }
  | Except.error _ =>
    { future := fut
      stats := stats
      loopContinues := true
      pausedOneSecond := true
      raisedOut := false }

end Raindrop

namespace Raindrop

namespace TokenBucket

lemma refillAt_bounds (b : TokenBucket) (now : ℚ) (hcap : 0 ≤ b.capacity)
    (htok : 0 ≤ b.tokens) (hrate : 0 ≤ b.refill_rate)
    (hnow : b.last_refill ≤ now) :
    0 ≤ (b.refillAt now).tokens ∧
    (b.refillAt now).tokens ≤ (b.capacity : ℚ) := by
  have h1 : 0 ≤ (now - b.last_refill) * b.refill_rate :=
    mul_nonneg (by linarith) hrate
  have hc : (0 : ℚ) ≤ (b.capacity : ℚ) := by exact_mod_cast hcap
  constructor
  · show 0 ≤ min (b.capacity : ℚ)
      (b.tokens + (now - b.last_refill) * b.refill_rate)
    exact le_min hc (by linarith)
  · show min (b.capacity : ℚ)
      (b.tokens + (now - b.last_refill) * b.refill_rate) ≤ (b.capacity : ℚ)
    exact min_le_left _ _

lemma time_until_available_snd (b : TokenBucket) (now : ℚ) (n : ℤ) :
    (b.time_until_available now n).2 = b.refillAt now := by
  unfold time_until_available
  dsimp only
  split <;> rfl

end TokenBucket

/-- C2: `consume` refills first (adding `elapsed * refill_rate` capped at
`capacity` and setting `last_refill` to now), then returns true and
subtracts exactly `n` when the refilled count is at least `n`, and
otherwise returns false leaving the bucket as refilled; under
non-negativity of the configuration, the token count stays within
`[0, capacity]` after `consume`, `tokens_available` and
`time_until_available`. -/
theorem c2_token_bucket_consume_and_bounds
    (b : TokenBucket) (now : ℚ) (n : ℤ)
    (hcap : 0 ≤ b.capacity) (htok : 0 ≤ b.tokens)
    (hrate : 0 ≤ b.refill_rate) (hnow : b.last_refill ≤ now) (hn : 0 ≤ n) :
    (b.consume now n =
      if (n : ℚ) ≤ (b.refillAt now).tokens then
        (true, { b.refillAt now with
                  tokens := (b.refillAt now).tokens - (n : ℚ) })
      else (false, b.refillAt now))
    ∧ (b.refillAt now).last_refill = now
    ∧ (0 ≤ (b.consume now n).2.tokens ∧
        (b.consume now n).2.tokens ≤ (b.capacity : ℚ))
    ∧ (0 ≤ (b.tokens_available now).2.tokens ∧
        (b.tokens_available now).2.tokens ≤ (b.capacity : ℚ))
    ∧ (0 ≤ (b.time_until_available now n).2.tokens ∧
        (b.time_until_available now n).2.tokens ≤ (b.capacity : ℚ)) := by
  obtain ⟨h0, hc⟩ := TokenBucket.refillAt_bounds b now hcap htok hrate hnow
  have heq : b.consume now n =
      if (n : ℚ) ≤ (b.refillAt now).tokens then
        (true, { b.refillAt now with
                  tokens := (b.refillAt now).tokens - (n : ℚ) })
      else (false, b.refillAt now) := rfl
  have hnq : (0 : ℚ) ≤ (n : ℚ) := by exact_mod_cast hn
  refine ⟨heq, rfl, ?_, ?_, ?_⟩
  · rw [heq]
    by_cases h : (n : ℚ) ≤ (b.refillAt now).tokens
    · rw [if_pos h]
      exact ⟨by simpa using sub_nonneg.mpr h, by simp; linarith⟩
    · rw [if_neg h]
      exact ⟨h0, hc⟩
  · exact ⟨h0, hc⟩
  · rw [TokenBucket.time_until_available_snd]
    exact ⟨h0, hc⟩

/-- Witness for C2 at the concrete bucket (capacity 10, 5 tokens, rate 2,
last refill 0) consuming one token at time 1. -/
theorem c2_token_bucket_consume_and_bounds_witness :
    (0 ≤ (TokenBucket.bucketEx.consume 1 1).2.tokens ∧
      (TokenBucket.bucketEx.consume 1 1).2.tokens ≤
        (TokenBucket.bucketEx.capacity : ℚ)) ∧
    (TokenBucket.bucketEx.refillAt 1).last_refill = 1 := by
  have h := c2_token_bucket_consume_and_bounds TokenBucket.bucketEx 1 1
    (by norm_num [TokenBucket.bucketEx]) (by norm_num [TokenBucket.bucketEx])
    (by norm_num [TokenBucket.bucketEx]) (by norm_num [TokenBucket.bucketEx])
    (by norm_num)
  exact ⟨h.2.2.1, h.2.1⟩

namespace CircuitBreaker

lemma record_failure_last_failure_time (cb : CircuitBreaker) (now : ℚ) :
    (cb.record_failure now).last_failure_time = now := by
  unfold record_failure
  cases cb.state
  · dsimp only
    split <;> rfl
  · rfl
  · rfl

lemma record_failure_config (cb : CircuitBreaker) (now : ℚ) :
    (cb.record_failure now).failure_threshold = cb.failure_threshold ∧
    (cb.record_failure now).recovery_timeout = cb.recovery_timeout ∧
    (cb.record_failure now).success_threshold = cb.success_threshold := by
  unfold record_failure
  cases cb.state
  · dsimp only
    split <;> exact ⟨rfl, rfl, rfl⟩
  · exact ⟨rfl, rfl, rfl⟩
  · exact ⟨rfl, rfl, rfl⟩

lemma record_failure_closed (cb : CircuitBreaker) (now : ℚ)
    (h : cb.state = CircuitState.CLOSED) :
    cb.record_failure now =
      if cb.failure_threshold ≤ cb.failure_count + 1 then
        { cb with failure_count := cb.failure_count + 1,
                  last_failure_time := now, state := CircuitState.OPEN }
      else
        { cb with failure_count := cb.failure_count + 1,
                  last_failure_time := now } := by
  unfold record_failure
  rw [h]

lemma record_failures_closed_open (ts : List ℚ) :
    ∀ cb : CircuitBreaker, cb.state = CircuitState.CLOSED →
      cb.failure_count + ts.length = cb.failure_threshold → ts ≠ [] →
      (cb.record_failures ts).state = CircuitState.OPEN := by
  induction ts with
  | nil => intro cb _ _ hne; exact absurd rfl hne
  | cons t ts ih =>
    intro cb hstate hcount _
    show ((cb.record_failure t).record_failures ts).state = CircuitState.OPEN
    rcases List.eq_nil_or_concat ts with hts | _
    · subst hts
      have hth : cb.failure_threshold ≤ cb.failure_count + 1 := by
        simp at hcount; omega
      show ((cb.record_failure t).record_failures []).state = CircuitState.OPEN
      rw [record_failure_closed cb t hstate, if_pos hth]
      rfl
    · have hlen : 1 ≤ ts.length := by
        cases ts with
        | nil => simp_all
        | cons a l => simp
      have hth : ¬ cb.failure_threshold ≤ cb.failure_count + 1 := by
        simp at hcount; omega
      rw [record_failure_closed cb t hstate, if_neg hth]
      apply ih
      · exact hstate
      · simp at hcount ⊢; omega
      · intro h; subst h; simp at hlen

lemma record_failures_last_failure_time (ts : List ℚ) :
    ∀ cb : CircuitBreaker,
      (cb.record_failures ts).last_failure_time =
        ts.getLastD cb.last_failure_time := by
  induction ts with
  | nil => intro cb; rfl
  | cons t ts ih =>
    intro cb
    show ((cb.record_failure t).record_failures ts).last_failure_time = _
    rw [ih, record_failure_last_failure_time, List.getLastD_cons]

lemma record_success_half_open (cb : CircuitBreaker)
    (h : cb.state = CircuitState.HALF_OPEN) :
    cb.record_success =
      if cb.success_threshold ≤ cb.success_count + 1 then
        { cb with success_count := cb.success_count + 1,
                  state := CircuitState.CLOSED, failure_count := 0 }
      else
        { cb with success_count := cb.success_count + 1 } := by
  unfold record_success
  rw [h]

lemma record_successes_half_open_closed (n : ℕ) :
    ∀ cb : CircuitBreaker, cb.state = CircuitState.HALF_OPEN →
      cb.success_count + n = cb.success_threshold → n ≠ 0 →
      (cb.record_successes n).state = CircuitState.CLOSED ∧
      (cb.record_successes n).failure_count = 0 := by
  induction n with
  | zero => intro cb _ _ hne; exact absurd rfl hne
  | succ k ih =>
    intro cb hstate hcount _
    show ((cb.record_success).record_successes k).state = CircuitState.CLOSED ∧
      ((cb.record_success).record_successes k).failure_count = 0
    rcases Nat.eq_zero_or_pos k with hk | hk
    · subst hk
      have hth : cb.success_threshold ≤ cb.success_count + 1 := by
        simp at hcount; omega
      rw [record_success_half_open cb hstate, if_pos hth]
      exact ⟨rfl, rfl⟩
    · have hth : ¬ cb.success_threshold ≤ cb.success_count + 1 := by
        push_cast at hcount; omega
      rw [record_success_half_open cb hstate, if_neg hth]
      apply ih
      · exact hstate
      · push_cast at hcount ⊢; omega
      · omega

end CircuitBreaker

/-- C1: the circuit breaker is the specified three-state machine: it is
constructed CLOSED; `failure_threshold` consecutive failures from CLOSED
leave it OPEN with `last_failure_time` the time of the last failure; while
OPEN, `can_execute` returns false (with no state change) whenever the
recovery timeout has not yet elapsed, and a single `can_execute` call after
it has elapsed flips the state to HALF_OPEN (resetting `success_count`) and
returns true; in HALF_OPEN one failure returns to OPEN, and
`success_threshold` consecutive successes return to CLOSED with
`failure_count` reset to 0. -/
theorem c1_circuit_breaker_state_machine :
    (CircuitBreaker.init.state = CircuitState.CLOSED)
    ∧ (∀ (cb : CircuitBreaker) (ts : List ℚ),
        cb.state = CircuitState.CLOSED →
        cb.failure_count + ts.length = cb.failure_threshold → ts ≠ [] →
        (cb.record_failures ts).state = CircuitState.OPEN ∧
        (cb.record_failures ts).last_failure_time =
          ts.getLastD cb.last_failure_time)
    ∧ (∀ (cb : CircuitBreaker) (now : ℚ),
        cb.state = CircuitState.OPEN →
        now - cb.last_failure_time < cb.recovery_timeout →
        cb.can_execute now = (false, cb))
    ∧ (∀ (cb : CircuitBreaker) (now : ℚ),
        cb.state = CircuitState.OPEN →
        cb.recovery_timeout ≤ now - cb.last_failure_time →
        cb.can_execute now =
          (true, { cb with state := CircuitState.HALF_OPEN,
                           success_count := 0 }))
    ∧ (∀ (cb : CircuitBreaker) (now : ℚ),
        cb.state = CircuitState.HALF_OPEN →
        (cb.record_failure now).state = CircuitState.OPEN ∧
        (cb.record_failure now).last_failure_time = now)
    ∧ (∀ (cb : CircuitBreaker) (n : ℕ),
        cb.state = CircuitState.HALF_OPEN →
        cb.success_count + n = cb.success_threshold → n ≠ 0 →
        (cb.record_successes n).state = CircuitState.CLOSED ∧
        (cb.record_successes n).failure_count = 0) := by
  refine ⟨rfl, ?_, ?_, ?_, ?_, ?_⟩
  · intro cb ts hstate hcount hne
    exact ⟨CircuitBreaker.record_failures_closed_open ts cb hstate hcount hne,
      CircuitBreaker.record_failures_last_failure_time ts cb⟩
  · intro cb now hstate hlt
    unfold CircuitBreaker.can_execute
    rw [hstate]
    simp only [if_neg (not_le.mpr hlt)]
  · intro cb now hstate hle
    unfold CircuitBreaker.can_execute
    rw [hstate]
    simp only [if_pos hle]
  · intro cb now hstate
    constructor
    · unfold CircuitBreaker.record_failure
      rw [hstate]
    · exact CircuitBreaker.record_failure_last_failure_time cb now
  · intro cb n hstate hcount hne
    exact CircuitBreaker.record_successes_half_open_closed n cb hstate hcount hne

/-- Witness for C1 at concrete inputs: the default breaker (threshold 5)
opens after five failures at times 1..5 with last failure time 5; a breaker
that opened at time 10 rejects at time 20 and probes (flipping to
HALF_OPEN) at time 100; a HALF_OPEN breaker reopens on one failure and
closes (zeroing `failure_count`) after its two required successes. -/
theorem c1_circuit_breaker_state_machine_witness :
    ((CircuitBreaker.init.record_failures [1, 2, 3, 4, 5]).state =
        CircuitState.OPEN) ∧
    (CircuitBreaker.openAt10.can_execute 20 =
      (false, CircuitBreaker.openAt10)) ∧
    (CircuitBreaker.openAt10.can_execute 100 =
      (true, CircuitBreaker.halfOpenAt10)) ∧
    (CircuitBreaker.halfOpenAt10.record_failure 11).state =
      CircuitState.OPEN ∧
    (CircuitBreaker.halfOpenAt10.record_successes 2).state =
      CircuitState.CLOSED ∧
    (CircuitBreaker.halfOpenAt10.record_successes 2).failure_count = 0 := by
  obtain ⟨_, h2, h3, h4, h5, h6⟩ := c1_circuit_breaker_state_machine
  refine ⟨(h2 CircuitBreaker.init [1, 2, 3, 4, 5] rfl (by decide) (by decide)).1,
    h3 _ 20 rfl
      (by norm_num [CircuitBreaker.openAt10, CircuitBreaker.init]),
    h4 _ 100 rfl
      (by norm_num [CircuitBreaker.openAt10, CircuitBreaker.init]),
    (h5 _ 11 rfl).1, ?_, ?_⟩
  · exact (h6 _ 2 rfl (by decide) (by decide)).1
  · exact (h6 _ 2 rfl (by decide) (by decide)).2

namespace CircuitBreaker

lemma can_execute_false (cb : CircuitBreaker) (now : ℚ)
    (h : (cb.can_execute now).1 = false) :
    (cb.can_execute now).2 = cb := by
  cases hst : cb.state with
  | CLOSED => simp [can_execute, hst] at h
  | OPEN =>
    simp only [can_execute, hst] at h ⊢
    split at h
    · simp at h
    · rw [if_neg (by assumption)]
  | HALF_OPEN => simp [can_execute, hst] at h

end CircuitBreaker

/-- C4: when a circuit breaker is configured and `can_execute()` denies,
`acquire` raises the rate-limit error at once: nothing is enqueued in any
lane, no token is consumed, the processed and queued counters are
unchanged (only the rejected counter grows by one), and the breaker
itself is left as it was. -/
theorem c4_acquire_breaker_open_rejects
    (rl : RateLimiter) (cb : CircuitBreaker) (now : ℚ) (priority : String)
    (hcb : rl.circuit_breaker = some cb)
    (hblock : (cb.can_execute now).1 = false) :
    (rl.acquire_sync now priority).1 =
      AcquireOutcome.rateLimitError
        "Service temporarily unavailable (circuit breaker open)" ∧
    (rl.acquire_sync now priority).2.queue = rl.queue ∧
    (rl.acquire_sync now priority).2.token_bucket = rl.token_bucket ∧
    (rl.acquire_sync now priority).2.stats.requests_processed =
      rl.stats.requests_processed ∧
    (rl.acquire_sync now priority).2.stats.requests_queued =
      rl.stats.requests_queued ∧
    (rl.acquire_sync now priority).2.stats.requests_rejected =
      rl.stats.requests_rejected + 1 ∧
    (rl.acquire_sync now priority).2.circuit_breaker = some cb := by
  have hsnd := CircuitBreaker.can_execute_false cb now hblock
  have hrun : rl.acquire_sync now priority =
      (AcquireOutcome.rateLimitError
        "Service temporarily unavailable (circuit breaker open)",
       { rl with
          circuit_breaker := some (cb.can_execute now).2
          stats := { rl.stats with
            requests_rejected := rl.stats.requests_rejected + 1 } }) := by
    unfold RateLimiter.acquire_sync
    rw [hcb]
    dsimp only
    rw [hblock]
    rfl
  rw [hrun, hsnd]
  exact ⟨rfl, rfl, rfl, rfl, rfl, rfl, rfl⟩

/-- Witness for C4: the concrete limiter whose breaker opened at time 10,
asked at time 20 (before the 60-second recovery timeout), raises the
rate-limit error and leaves queue, bucket and processed counter as they
were. -/
theorem c4_acquire_breaker_open_rejects_witness :
    (RateLimiter.openEx.acquire_sync 20 "normal").1 =
      AcquireOutcome.rateLimitError
        "Service temporarily unavailable (circuit breaker open)" ∧
    (RateLimiter.openEx.acquire_sync 20 "normal").2.queue =
      RateLimiter.openEx.queue ∧
    (RateLimiter.openEx.acquire_sync 20 "normal").2.token_bucket =
      RateLimiter.openEx.token_bucket ∧
    (RateLimiter.openEx.acquire_sync 20 "normal").2.stats.requests_processed =
      RateLimiter.openEx.stats.requests_processed := by
  have h := c4_acquire_breaker_open_rejects RateLimiter.openEx
    CircuitBreaker.openAt10 20 "normal" rfl
    (by norm_num [CircuitBreaker.can_execute, CircuitBreaker.openAt10,
      CircuitBreaker.init])
  exact ⟨h.1, h.2.1, h.2.2.1, h.2.2.2.1⟩

/-- Counterexample for C7: the claim says a failure recorded while the
breaker is already OPEN does not increment the trip counter; on the
concrete limiter whose breaker is already OPEN, one `record_failure`
raises the counter from 0 to 1. -/
theorem c7_trips_already_open_counterexample :
    CircuitBreaker.openAt10.state = CircuitState.OPEN ∧
    RateLimiter.openEx.circuit_breaker = some CircuitBreaker.openAt10 ∧
    RateLimiter.openEx.stats.circuit_breaker_trips = 0 ∧
    (RateLimiter.openEx.record_failure 11).stats.circuit_breaker_trips = 1 ∧
    ((RateLimiter.openEx.record_failure 11).circuit_breaker.map
        CircuitBreaker.state) = some CircuitState.OPEN := by
  refine ⟨rfl, rfl, rfl, ?_, ?_⟩ <;> rfl

/-- C7 amended: `RateLimiter.record_failure` increments the trip counter
iff the breaker's state after recording the failure is OPEN — on
CLOSED→OPEN and HALF_OPEN→OPEN transitions, and also on every failure
recorded while the breaker is already OPEN. -/
theorem c7_trips_iff_post_state_open
    (rl : RateLimiter) (cb : CircuitBreaker) (now : ℚ)
    (hcb : rl.circuit_breaker = some cb) :
    (rl.record_failure now).stats.circuit_breaker_trips =
      rl.stats.circuit_breaker_trips +
        (if (cb.record_failure now).state = CircuitState.OPEN then 1 else 0) ∧
    (rl.record_failure now).circuit_breaker = some (cb.record_failure now) := by
  unfold RateLimiter.record_failure
  rw [hcb]
  dsimp only
  split
  · exact ⟨by simp_all, rfl⟩
  · exact ⟨by simp_all, rfl⟩

/-- Witness for C7 at the concrete already-OPEN limiter. -/
theorem c7_trips_iff_post_state_open_witness :
    (RateLimiter.openEx.record_failure 11).stats.circuit_breaker_trips =
      RateLimiter.openEx.stats.circuit_breaker_trips +
        (if (CircuitBreaker.openAt10.record_failure 11).state =
            CircuitState.OPEN then 1 else 0) :=
  (c7_trips_iff_post_state_open RateLimiter.openEx
    CircuitBreaker.openAt10 11 rfl).1

lemma handle_response_server (st : ℤ) (ef : Option String) (ra : Option ℤ)
    (hst : 500 ≤ st) :
    handle_response st ef ra =
      Except.error (RaindropException.serverError (ef.getD "Server error") st) := by
  unfold handle_response
  rw [if_neg (by omega), if_neg (by omega), if_neg (by omega),
    if_neg (by omega), if_neg (by omega), if_neg (by omega), if_pos hst]

/-- C3: contrary to the claim, a ≥500 response is not retried and records
no failure: `ServerError` extends `RaindropError`, a plain `Exception`,
so the loop's `except (ClientError, asyncio.TimeoutError)` clause does
not catch it — whenever the first attempt yields a ≥500 response, the
`ServerError` propagates after exactly one attempt, with zero
`record_failure` calls, regardless of `max_retries`. -/
theorem c3_server_error_propagates_unretried
    (maxRetries : ℕ) (attempts : ℕ → AttemptOutcome)
    (st : ℤ) (ef : Option String) (ra : Option ℤ)
    (hfirst : attempts 0 = AttemptOutcome.httpResponse st ef ra)
    (hst : 500 ≤ st) :
    makeRequestLoop maxRetries attempts =
      { result := Except.error
          (RaindropException.serverError (ef.getD "Server error") st)
        attemptsMade := 1
        failuresRecorded := 0
        successesRecorded := 0 } := by
  unfold makeRequestLoop
  unfold requestLoopGo
  rw [hfirst]
  dsimp only
  rw [handle_response_server st ef ra hst]

/-- Witness for C3: with `max_retries = 3` and every attempt answering
HTTP 500, the loop returns the `ServerError` after one attempt and zero
recorded failures. -/
theorem c3_server_error_propagates_unretried_witness :
    makeRequestLoop 3
      (fun _ => AttemptOutcome.httpResponse 500
        (some "Internal Server Error") none) =
      { result := Except.error
          (RaindropException.serverError "Internal Server Error" 500)
        attemptsMade := 1
        failuresRecorded := 0
        successesRecorded := 0 } :=
  c3_server_error_propagates_unretried 3 _ 500
    (some "Internal Server Error") none rfl (by norm_num)

/-- Counterexample for C5: the claim says a 401 whose message contains
"expired" raises `TokenExpiredError`; the message "Session expired"
contains "expired" but not "token", and the code raises the generic
`AuthenticationError` instead. -/
theorem c5_401_expired_without_token_counterexample :
    strContainsSub (lowerStr "Session expired") "expired" = true ∧
    handle_response 401 (some "Session expired") none =
      Except.error (RaindropException.authenticationError "Session expired") := by
  refine ⟨by decide, ?_⟩
  unfold handle_response
  rw [if_neg (by omega), if_neg (by omega), if_pos rfl]
  dsimp only [Option.getD]
  rw [if_neg (by decide)]

/-- C5 amended: a 401 error message is first tested (case-insensitively)
for the substring "token"; only messages containing "token" are split by
"expired" into `TokenExpiredError` versus `InvalidTokenError`, and
messages without "token" raise the generic `AuthenticationError`. -/
theorem c5_401_token_then_expired (msg : String) (ra : Option ℤ) :
    handle_response 401 (some msg) ra =
      (if strContainsSub (lowerStr msg) "token" then
        if strContainsSub (lowerStr msg) "expired" then
          Except.error (RaindropException.tokenExpiredError msg)
        else
          Except.error (RaindropException.invalidTokenError msg)
      else
        Except.error (RaindropException.authenticationError msg)) := by
  unfold handle_response
  rw [if_neg (by omega), if_neg (by omega), if_pos rfl]
  dsimp only [Option.getD]

/-- C9: a 404 response raises `NotFoundError("Resource", None)` whose
message is the fixed "Resource not found", whatever error text the
response body carried. -/
theorem c9_404_fixed_not_found_message (ef : Option String) (ra : Option ℤ) :
    handle_response 404 ef ra =
      Except.error (RaindropException.notFoundError "Resource not found") := by
  have h : notFoundMessage "Resource" none = "Resource not found" := by decide
  unfold handle_response
  rw [if_neg (by omega), if_neg (by omega), if_neg (by omega),
    if_neg (by omega), if_pos rfl, h]

lemma removeDupsAux_sublist (l : List String) :
    ∀ seen, List.Sublist (removeDupsAux seen l) l := by
  induction l with
  | nil => intro seen; exact List.Sublist.refl []
  | cons x xs ih =>
    intro seen
    unfold removeDupsAux
    split
    · exact List.Sublist.cons₂ x (ih (x :: seen))
    · exact List.Sublist.cons x (ih seen)

lemma removeDupsAux_nodup_and_mem (l : List String) :
    ∀ seen, (removeDupsAux seen l).Nodup ∧
      ∀ x ∈ removeDupsAux seen l, x ∉ seen ∧ x ≠ "" := by
  induction l with
  | nil =>
    intro seen
    constructor
    · exact List.nodup_nil
    · intro x hx
      simp [removeDupsAux] at hx
  | cons y ys ih =>
    intro seen
    unfold removeDupsAux
    split
    case isTrue h =>
      obtain ⟨hnd, hmem⟩ := ih (y :: seen)
      constructor
      · refine List.Nodup.cons ?_ hnd
        intro hy
        exact (hmem y hy).1 (List.mem_cons_self y seen)
      · intro x hx
        rcases List.mem_cons.mp hx with rfl | hx2
        · exact ⟨h.2, h.1⟩
        · obtain ⟨hns, hne⟩ := hmem x hx2
          exact ⟨fun hxs => hns (List.mem_cons_of_mem _ hxs), hne⟩
    case isFalse h =>
      exact ih seen

/-- C8: the round trip: on the concrete input the produced dictionary has
`link` equal to the URL and tags `["a", "b"]`; in general, for every
non-empty URL the validator accepts and every list of string tags, any
produced tags list is duplicate-free, preserves first-occurrence order (it
is a sublist of the sanitized inputs) and consists of sanitized input
tags. -/
theorem c8_create_bookmark_round_trip :
    (mcp_to_raindrop_create_bookmark
        { url := some "https://x.com", tags := some ["A", "a", "B"] } =
      Except.ok { link := "https://x.com", tags := some ["a", "b"] })
    ∧ ∀ (url : String) (ts : List String),
        url ≠ "" → validate_url url = true →
        ∃ d, mcp_to_raindrop_create_bookmark
            { url := some url, tags := some ts } = Except.ok d ∧
          d.link = url ∧
          ∀ out, d.tags = some out →
            out.Nodup ∧ List.Sublist out (ts.map sanitize_tag) ∧
            ∀ t ∈ out, ∃ s ∈ ts, t = sanitize_tag s := by
  constructor
  · rfl
  · intro url ts hne hval
    unfold mcp_to_raindrop_create_bookmark
    dsimp only
    rw [if_neg hne, hval, if_neg (by simp)]
    cases hpt : processCreateTags (some ts) with
    | none =>
      refine ⟨_, rfl, rfl, ?_⟩
      intro out hout
      simp at hout
    | some s =>
      refine ⟨_, rfl, rfl, ?_⟩
      intro out hout
      have hs : out = s := by simpa using hout.symm
      subst hs
      have hsan : out = remove_duplicates_preserve_order (ts.map sanitize_tag) := by
        unfold processCreateTags at hpt
        dsimp only at hpt
        split at hpt
        · simp at hpt
        · split at hpt
          · simp at hpt
          · simpa using hpt.symm
      subst hsan
      refine ⟨(removeDupsAux_nodup_and_mem (ts.map sanitize_tag) []).1,
        removeDupsAux_sublist (ts.map sanitize_tag) [], ?_⟩
      intro t ht
      have hmem : t ∈ ts.map sanitize_tag :=
        (removeDupsAux_sublist (ts.map sanitize_tag) []).subset ht
      obtain ⟨s2, hs2, rfl⟩ := List.mem_map.mp hmem
      exact ⟨s2, hs2, rfl⟩

/-- Witness for C8's general part at the concrete round-trip input. -/
theorem c8_create_bookmark_round_trip_witness :
    ("https://x.com" : String) ≠ "" ∧
    validate_url "https://x.com" = true ∧
    ∃ d, mcp_to_raindrop_create_bookmark
        { url := some "https://x.com", tags := some ["A", "a", "B"] } =
      Except.ok d ∧
      d.link = "https://x.com" ∧
      ∀ out, d.tags = some out →
        out.Nodup ∧ List.Sublist out (["A", "a", "B"].map sanitize_tag) ∧
        ∀ t ∈ out, ∃ s ∈ ["A", "a", "B"], t = sanitize_tag s := by
  refine ⟨by decide, by decide, ?_⟩
  exact c8_create_bookmark_round_trip.2 "https://x.com" ["A", "a", "B"]
    (by decide) (by decide)

/-- C10: with a valid (non-zero integer) `bookmark_id`, an explicit
`tags: None` produces an empty tags list, and an explicit
`collection_id: None` produces the root collection id 0. -/
theorem c10_update_bookmark_explicit_none
    (args : UpdateBookmarkArgs) (bid : ℤ)
    (hbid : args.bookmark_id = some bid) (hbid0 : bid ≠ 0)
    (htags : args.tags = some none)
    (hcoll : args.collection_id = some none) :
    ∃ d, mcp_to_raindrop_update_bookmark args = Except.ok d ∧
      d.tags = some [] ∧ d.collection = some 0 := by
  obtain ⟨abid, atitle, aex, anote, atags, acoll⟩ := args
  dsimp only at hbid htags hcoll
  subst hbid htags hcoll
  unfold mcp_to_raindrop_update_bookmark
  dsimp only
  rw [if_neg hbid0]
  exact ⟨_, rfl, rfl, rfl⟩

/-- Witness for C10 at the concrete argument map with `bookmark_id` 42
and explicit `None` tags and collection id. -/
theorem c10_update_bookmark_explicit_none_witness :
    ∃ d, mcp_to_raindrop_update_bookmark
        { bookmark_id := some 42, tags := some none,
          collection_id := some none } = Except.ok d ∧
      d.tags = some [] ∧ d.collection = some 0 :=
  c10_update_bookmark_explicit_none _ 42 rfl (by decide) rfl rfl

/-- Counterexample for C6: the claim says an `acquire` timeout leaves the
queued future un-cancelled and the drain task's late `set_result` is a
no-op raising nothing; in fact `asyncio.wait_for` cancels the future on
timeout, and `set_result` on the cancelled future raises
`InvalidStateError`. -/
theorem c6_abandoned_future_counterexample :
    (acquireTimeout Stats.init FutureState.pending).1 = false ∧
    (acquireTimeout Stats.init FutureState.pending).2.1.requests_rejected = 1 ∧
    (acquireTimeout Stats.init FutureState.pending).2.2 =
      FutureState.cancelled ∧
    futureSetResult (acquireTimeout Stats.init FutureState.pending).2.2 true =
      Except.error () :=
  ⟨rfl, rfl, rfl, rfl⟩

/-- C6 amended: the timed-out `acquire` increments the rejected counter
and returns false, but `asyncio.wait_for` cancels its pending future; the
drain task's later `set_result` on that cancelled future raises
`InvalidStateError`, which the drain loop's catch-all handler absorbs —
the loop pauses one second, skips the counter bump, and continues with
subsequent requests; nothing escapes the drain task. -/
theorem c6_timeout_cancels_future
    (stats stats2 : Stats) (fut : FutureState) (grant : Bool)
    (hp : fut = FutureState.pending) :
    (acquireTimeout stats fut).1 = false ∧
    (acquireTimeout stats fut).2.1.requests_rejected =
      stats.requests_rejected + 1 ∧
    (acquireTimeout stats fut).2.2 = FutureState.cancelled ∧
    futureSetResult (acquireTimeout stats fut).2.2 grant = Except.error () ∧
    drainResolve stats2 (acquireTimeout stats fut).2.2 grant =
      { future := FutureState.cancelled
        stats := stats2
        loopContinues := true
        pausedOneSecond := true
        raisedOut := false } := by
  subst hp
  exact ⟨rfl, rfl, rfl, rfl, rfl⟩

/-- Witness for C6's amended statement at concrete inputs. -/
theorem c6_timeout_cancels_future_witness :
    (acquireTimeout Stats.init FutureState.pending).2.2 =
      FutureState.cancelled ∧
    drainResolve Stats.init
        (acquireTimeout Stats.init FutureState.pending).2.2 true =
      { future := FutureState.cancelled
        stats := Stats.init
        loopContinues := true
        pausedOneSecond := true
        raisedOut := false } := by
  have h := c6_timeout_cancels_future Stats.init Stats.init
    FutureState.pending true rfl
  exact ⟨h.2.2.1, h.2.2.2.2⟩

end Raindrop
